import Mathlib

/-!
Verification development for the agent-gateway-krakend repository.

The development shallowly embeds the two Go interceptor plugins:

* `AgentCardRW` — the `agentcard-rw` plugin (agent-card URL rewriting),
  embedding `path_utils.go`, the `url_replacer` helpers
  (`constructExternalURL`, `isValidTransport`, `safeGetString`,
  `safeGetArray`, `rewriteAdditionalInterfacesMap`, `rewriteAgentCardMap`)
  and the request handler of `agentcard_rw.go` (with `getGatewayURL`).

* `OpenAIA2A` — the `openai-a2a` plugin (OpenAI to A2A protocol bridge),
  embedding `resolveAgentBackend`, `handleGlobalChatCompletions`,
  `handleModelsRequest`, the router `handleRequest`,
  `transformOpenAIToA2A` and `transformA2AToOpenAI`.

Decoded JSON data (Go `interface{}` values produced by `encoding/json`)
is modelled by the inductive type `Jv`.  Go distinguishes a nil slice
from a non-nil empty slice: `json.Marshal` renders a nil
`[]interface{}` as `null` and a non-nil empty one as `[]`.  The model
keeps that distinction (`Jv.arrNil` versus `Jv.arr []`); `wireImage`
computes the JSON value actually serialized onto the wire.

Go strings are modelled as Lean strings; the `strings` package
functions used by the plugins (`Contains`, `ContainsAny`, `HasSuffix`,
`Index`, `TrimSuffix`, `ToLower`) are re-implemented on the character
list (exact for the ASCII data these plugins handle).

Nondeterministic inputs of the Go code (UUIDs, wall-clock time) are
passed to the embedded functions as explicit parameters.
-/

/-- A decoded Go JSON value (`interface{}` after `encoding/json` decoding,
or a value about to be marshaled).  `num` keeps the literal text of the
number, since no plugin logic computes with numbers.  `arrNil` is the Go
nil `[]interface{}`: never produced by decoding, but producible by the
rewriter; `json.Marshal` renders it as `null`. -/
inductive Jv where
  | null : Jv
  | bool (b : Bool) : Jv
  | num (lit : String) : Jv
  | str (s : String) : Jv
  | arr (elems : List Jv) : Jv
  | arrNil : Jv
  | obj (fields : List (String × Jv)) : Jv

mutual

/-- Boolean equality on `Jv` (structural). -/
def jvBeq : Jv → Jv → Bool
  | .null, .null => true
  | .bool a, .bool b => a == b
  | .num a, .num b => a == b
  | .str a, .str b => a == b
  | .arr xs, .arr ys => jvBeqList xs ys
  | .arrNil, .arrNil => true
  | .obj fs, .obj gs => jvBeqFields fs gs
  | _, _ => false

/-- Boolean equality on lists of `Jv`. -/
def jvBeqList : List Jv → List Jv → Bool
  | [], [] => true
  | x :: xs, y :: ys => jvBeq x y && jvBeqList xs ys
  | _, _ => false

/-- Boolean equality on JSON object field lists. -/
def jvBeqFields : List (String × Jv) → List (String × Jv) → Bool
  | [], [] => true
  | (k, v) :: fs, (k', v') :: gs => k == k' && jvBeq v v' && jvBeqFields fs gs
  | _, _ => false

end

mutual

/-- Soundness of `jvBeq`: it decides equality of `Jv` values. -/
def jvBeq_iff : ∀ (a b : Jv), jvBeq a b = true ↔ a = b
  | .null, b => by cases b <;> simp [jvBeq]
  | .bool x, b => by cases b <;> simp [jvBeq]
  | .num x, b => by cases b <;> simp [jvBeq]
  | .str x, b => by cases b <;> simp [jvBeq]
  | .arrNil, b => by cases b <;> simp [jvBeq]
  | .arr xs, .null => by simp [jvBeq]
  | .arr xs, .bool y => by simp [jvBeq]
  | .arr xs, .num y => by simp [jvBeq]
  | .arr xs, .str y => by simp [jvBeq]
  | .arr xs, .arrNil => by simp [jvBeq]
  | .arr xs, .arr ys => by
      simp only [jvBeq, Jv.arr.injEq]
      exact jvBeqList_iff xs ys
  | .arr xs, .obj gs => by simp [jvBeq]
  | .obj fs, .null => by simp [jvBeq]
  | .obj fs, .bool y => by simp [jvBeq]
  | .obj fs, .num y => by simp [jvBeq]
  | .obj fs, .str y => by simp [jvBeq]
  | .obj fs, .arrNil => by simp [jvBeq]
  | .obj fs, .arr ys => by simp [jvBeq]
  | .obj fs, .obj gs => by
      simp only [jvBeq, Jv.obj.injEq]
      exact jvBeqFields_iff fs gs

/-- Soundness of `jvBeqList` on `Jv` lists. -/
def jvBeqList_iff : ∀ (xs ys : List Jv), jvBeqList xs ys = true ↔ xs = ys
  | [], [] => by simp [jvBeqList]
  | [], _ :: _ => by simp [jvBeqList]
  | _ :: _, [] => by simp [jvBeqList]
  | x :: xs, y :: ys => by
      simp only [jvBeqList, Bool.and_eq_true, List.cons.injEq]
      exact and_congr (jvBeq_iff x y) (jvBeqList_iff xs ys)

/-- Soundness of `jvBeqFields` on object field lists. -/
def jvBeqFields_iff : ∀ (fs gs : List (String × Jv)), jvBeqFields fs gs = true ↔ fs = gs
  | [], [] => by simp [jvBeqFields]
  | [], _ :: _ => by simp [jvBeqFields]
  | _ :: _, [] => by simp [jvBeqFields]
  | (k, v) :: fs, (k', v') :: gs => by
      simp only [jvBeqFields, Bool.and_eq_true, List.cons.injEq, Prod.mk.injEq, beq_iff_eq,
        and_assoc]
      exact and_congr Iff.rfl (and_congr (jvBeq_iff v v') (jvBeqFields_iff fs gs))

end

instance : DecidableEq Jv := fun a b => decidable_of_iff (jvBeq a b = true) (jvBeq_iff a b)

/-- Look up the value bound to key `k` in a decoded JSON object
(first binding wins; decoded objects have unique keys). -/
def lookupKey (k : String) : List (String × Jv) → Option Jv
  | [] => none
  | (k', v) :: rest => if k' = k then some v else lookupKey k rest

/-- Go map assignment `m[k] = v` restricted to keys already present:
replaces the value at every binding of `k` (decoded objects bind each
key once, so this is exactly the Go update). -/
def mapSet (m : List (String × Jv)) (k : String) (v : Jv) : List (String × Jv) :=
  m.map (fun kv => if kv.1 = k then (kv.1, v) else kv)

mutual

/-- The JSON value a Go value marshals to: `json.Marshal` renders a nil
slice as `null`; everything else is rendered structurally. -/
def wireImage : Jv → Jv
  | .null => .null
  | .bool b => .bool b
  | .num lit => .num lit
  | .str s => .str s
  | .arr xs => .arr (wireImageList xs)
  | .arrNil => .null
  | .obj fs => .obj (wireImageFields fs)

/-- The wire image mapped over array elements. -/
def wireImageList : List Jv → List Jv
  | [] => []
  | x :: xs => wireImage x :: wireImageList xs

/-- The wire image mapped over object field values. -/
def wireImageFields : List (String × Jv) → List (String × Jv)
  | [] => []
  | (k, v) :: fs => (k, wireImage v) :: wireImageFields fs

end

/-! ### Go `strings` package functions (on character lists; exact for ASCII) -/

/-- Go `strings.Contains(s, sub)`. -/
def goContains (s sub : String) : Bool :=
  s.data.tails.any (fun t => sub.data.isPrefixOf t)

/-- Go `strings.ContainsAny(s, chars)`. -/
def goContainsAny (s chars : String) : Bool :=
  s.data.any (fun c => chars.data.contains c)

/-- Go `strings.HasSuffix(s, suffix)`. -/
def goHasSuffix (s suffix : String) : Bool :=
  suffix.data.isSuffixOf s.data

/-- Go `strings.TrimSuffix(s, suffix)`: removes one trailing copy of
`suffix` when present. -/
def goTrimSuffix (s suffix : String) : String :=
  if goHasSuffix s suffix then ⟨s.data.take (s.data.length - suffix.data.length)⟩ else s

/-- The characters of `l` strictly before the first occurrence of `sub`,
or `none` when `sub` does not occur: the prefix carved out by Go
`strings.Index`.  An empty `sub` occurs at index 0, as in Go. -/
def prefixBeforeSub (sub : List Char) : List Char → Option (List Char)
  | [] => if sub.isPrefixOf ([] : List Char) then some [] else none
  | c :: rest =>
    if sub.isPrefixOf (c :: rest) then some []
    else (prefixBeforeSub sub rest).map (fun pre => c :: pre)

/-- Go `strings.ToLower` (ASCII range, which covers every transport label
the plugin compares). -/
def goToLower (s : String) : String := ⟨s.data.map Char.toLower⟩


/-! ## The agentcard-rw plugin -/

namespace AgentCardRW

/-- From `path_utils.go`: the standard path suffix for agent card endpoints. -/
def agentCardSuffix : String := "/.well-known/agent-card.json"

/-- From `path_utils.go`: `isAgentCardEndpoint` checks if the path
ends with the agent card suffix. -/
def isAgentCardEndpoint (path : String) : Bool :=
  goHasSuffix path agentCardSuffix

/-- From `path_utils.go`: `extractAgentPath` returns everything before
the first occurrence of the agent card suffix (`strings.Index`), or the
empty string when the suffix is absent or occurs at position 0. -/
def extractAgentPath (path : String) : String :=
  match prefixBeforeSub agentCardSuffix.data path.data with
  | some pre => if pre.isEmpty then "" else ⟨pre⟩
  | none => ""

/-- From the `url_replacer` helpers: `constructExternalURL` joins the
gateway URL and the agent path after trimming one trailing slash from
each. -/
def constructExternalURL (gatewayURL agentPath : String) : String :=
  goTrimSuffix gatewayURL "/" ++ goTrimSuffix agentPath "/"

/-- From the `url_replacer` helpers: `isValidTransport` recognizes the
transports jsonrpc, grpc and http+json case-insensitively. -/
def isValidTransport (transport : String) : Bool :=
  let normalized := goToLower transport
  normalized == "jsonrpc" || normalized == "grpc" || normalized == "http+json"

/-- From the `url_replacer` helpers: `safeGetString` returns the value
at `key` when it is a string. -/
def safeGetString (m : List (String × Jv)) (key : String) : Option String :=
  match lookupKey key m with
  | some (.str s) => some s
  | _ => none

/-- From the `url_replacer` helpers: `safeGetArray` returns the value at
`key` when it is a `[]interface{}`.  The Go type assertion also accepts
a nil slice (yielding a slice of no elements), so `arrNil` is accepted
here as well, although decoded JSON never contains it. -/
def safeGetArray (m : List (String × Jv)) (key : String) : Option (List Jv) :=
  match lookupKey key m with
  | some (.arr xs) => some xs
  | some .arrNil => some []
  | _ => none

/-- Go `append` on a `[]interface{}` that starts as the nil slice:
`none` models nil, `some xs` a non-nil slice holding `xs`. -/
def goAppend : Option (List Jv) → Jv → Option (List Jv)
  | none, x => some [x]
  | some xs, x => some (xs ++ [x])

/-- One iteration of the `rewriteAdditionalInterfacesMap` loop: keep the
element iff it is a map carrying a string transport recognized by
`isValidTransport`, overwriting a string `url` field with `externalURL`. -/
def interfaceStep (externalURL : String) (result : Option (List Jv)) (iface : Jv) :
    Option (List Jv) :=
  match iface with
  | .obj ifaceMap =>
    match safeGetString ifaceMap "transport" with
    | some transport =>
      if isValidTransport transport then
        goAppend result
          (.obj (if (safeGetString ifaceMap "url").isSome
                 then mapSet ifaceMap "url" (.str externalURL)
                 else ifaceMap))
      else result
    | none => result
  | _ => result

/-- From the `url_replacer` helpers (the variant shipped with the
agentcard-rw plugin): `rewriteAdditionalInterfacesMap` filters the
interface list down to recognized transports and rewrites each kept
interface URL to the external gateway URL.  The Go result slice starts
as `var result []interface{}` — the nil slice — so the function returns
`none` when no element is kept. -/
def rewriteAdditionalInterfacesMap (interfaces : List Jv) (gatewayURL agentPath : String) :
    Option (List Jv) :=
  let externalURL := constructExternalURL gatewayURL agentPath
  interfaces.foldl (interfaceStep externalURL) none

/-- The `Jv` stored in the card map for a Go `[]interface{}` result:
`none` (the nil slice) is the value `json.Marshal` renders as `null`. -/
def goSliceToJv : Option (List Jv) → Jv
  | none => .arrNil
  | some xs => .arr xs

/-- From the `url_replacer` helpers: `rewriteAgentCardMap` overwrites a
string-valued top-level `url` with the external URL and replaces an
array-valued `additionalInterfaces` with the filtered, rewritten list;
every other field is left untouched. -/
def rewriteAgentCardMap (cardMap : List (String × Jv)) (gatewayURL agentPath : String) :
    List (String × Jv) :=
  let externalURL := constructExternalURL gatewayURL agentPath
  let m1 := if (safeGetString cardMap "url").isSome
            then mapSet cardMap "url" (.str externalURL)
            else cardMap
  match safeGetArray m1 "additionalInterfaces" with
  | some interfaces =>
      mapSet m1 "additionalInterfaces"
        (goSliceToJv (rewriteAdditionalInterfacesMap interfaces gatewayURL agentPath))
  | none => m1

/-- An incoming HTTP request as the agentcard-rw plugin reads it:
method, URL path, the `Host` field and the `X-Forwarded-Proto` header
(empty string when absent). -/
structure CardReq where
  method : String
  path : String
  host : String
  xForwardedProto : String

/-- Body bytes exchanged in the agent-card flow, classified by whether
`json.Unmarshal` into `map[string]interface{}` succeeds on them. -/
inductive CBody where
  | text (s : String) : CBody
  | jsonObj (fields : List (String × Jv)) : CBody
deriving DecidableEq

/-- A downstream response captured by the response-capturing writer:
status code, `Content-Type` header and body. -/
structure CardBackendResp where
  status : Nat
  contentType : String
  body : CBody

/-- The response the plugin hands to the client. -/
structure CardResp where
  status : Nat
  body : CBody
deriving DecidableEq

/-- From `agentcard_rw.go` (current variant): `getGatewayURL` builds
scheme plus host from the request.  The scheme falls back to `http`
when `X-Forwarded-Proto` is absent.  Despite its documentation comment
("or an error if Host header is missing") this variant performs no
check on the host and never returns an error. -/
def getGatewayURL (req : CardReq) : Except String String :=
  .ok ((if req.xForwardedProto ≠ "" then req.xForwardedProto else "http") ++ "://" ++ req.host)

/-- From `agentcard_rw.go`: the request handler.  Returns the response
emitted to the client together with a flag recording whether the
request was forwarded to the wrapped next handler.  `http.Error`
bodies carry a trailing newline, as written by Go. -/
def handleRequest (backend : CardReq → CardBackendResp) (req : CardReq) :
    CardResp × Bool :=
  if req.method = "GET" ∧ isAgentCardEndpoint req.path then
    match getGatewayURL req with
    | .error e => (⟨500, .text (e ++ "\n")⟩, false)
    | .ok gatewayURL =>
      let agentPath := extractAgentPath req.path
      if agentPath = "" then
        let resp := backend req
        (⟨resp.status, resp.body⟩, true)
      else
        let resp := backend req
        if resp.status ≠ 200 then
          (⟨resp.status, .text "Backend service returned an error\n"⟩, true)
        else if ¬ goContains resp.contentType "application/json" then
          (⟨415, .text "Expected application/json content type\n"⟩, true)
        else
          match resp.body with
          | .text _ => (⟨500, .text "Failed to parse agent card JSON\n"⟩, true)
          | .jsonObj cardMap =>
              (⟨200, .jsonObj (rewriteAgentCardMap cardMap gatewayURL agentPath)⟩, true)
  else
    let resp := backend req
    (⟨resp.status, resp.body⟩, true)

/-- Modelled from the spec (§4.C.2) for comparison with the source:
the element-level keep/rewrite rule the claim describes — keep an
element iff it is an object with a string `transport` whose lowercase
form is recognized, overwriting its string `url` with the external URL
and preserving every other sibling field. -/
def specKeepElem (externalURL : String) (elem : Jv) : Option Jv :=
  match elem with
  | .obj m =>
    match safeGetString m "transport" with
    | some transport =>
      if goToLower transport ∈ (["jsonrpc", "grpc", "http+json"] : List String) then
        some (.obj (if (safeGetString m "url").isSome
                    then mapSet m "url" (.str externalURL)
                    else m))
      else none
    | none => none
  | _ => none

end AgentCardRW

/-! ## The openai-a2a plugin -/

namespace OpenAIA2A

/-- From `lib/models`: one element of the OpenAI `messages` array. -/
structure OpenAIMessage where
  role : String
  content : String
deriving DecidableEq

/-- From `lib/models`: the decoded OpenAI chat-completion request.
The `temperature` field is omitted from the model: no plugin logic
reads it. -/
structure OpenAIRequest where
  model : String
  messages : List OpenAIMessage
  stream : Bool
deriving DecidableEq

/-- The message of an OpenAI chat-completion choice. -/
structure ChoiceMessage where
  role : String
  content : String
deriving DecidableEq

/-- From `lib/models`: one element of the OpenAI `choices` array. -/
structure OpenAIChoice where
  index : Nat
  message : ChoiceMessage
  finishReason : String
deriving DecidableEq

/-- From `lib/models`: the OpenAI chat-completion response. -/
structure OpenAIResponse where
  id : String
  object : String
  created : Int
  model : String
  choices : List OpenAIChoice
deriving DecidableEq

/-- An A2A message or artifact part as the response translator sees it:
either a concrete typed part (`models.TextPart`, `models.DataPart`,
`models.FilePart`) or a raw `map[string]interface{}` left by JSON
unmarshaling of the interface-typed parts field. -/
inductive PartElem where
  | textPart (kind : String) (text : String) : PartElem
  | dataPart (kind : String) (data : Jv) : PartElem
  | filePart (kind : String) (uri : String) : PartElem
  | mapPart (m : List (String × Jv)) : PartElem
deriving DecidableEq

/-- From `lib/models`: one artifact of an A2A result. -/
structure Artifact where
  artifactId : String
  parts : List PartElem
deriving DecidableEq

/-- From `lib/models`: an A2A message (request message or history
element). -/
structure A2AMessage where
  kind : String
  messageId : String
  contextId : Option String
  role : String
  parts : List PartElem
deriving DecidableEq

/-- From `lib/models`: the fields of the A2A success result read by the
response translator (`artifacts`, `history`); the remaining envelope
fields (ids, status, kind) do not influence the translation and are
not modelled. -/
structure A2AResult where
  artifacts : List Artifact
  history : List A2AMessage
  contextId : String
deriving DecidableEq

/-- From `lib/models`: the A2A `message/send` JSON-RPC success
envelope. -/
structure A2ASuccess where
  jsonrpc : String
  id : Int
  result : A2AResult
deriving DecidableEq

/-- From `lib/models`: params of the A2A `message/send` request. -/
structure MessageSendParams where
  message : A2AMessage
  metadata : List (String × Jv)
deriving DecidableEq

/-- From `lib/models`: the A2A `message/send` JSON-RPC request
envelope. -/
structure SendMessageRequest where
  jsonrpc : String
  id : Int
  method : String
  params : MessageSendParams
deriving DecidableEq

/-- The text one part contributes in `transformA2AToOpenAI`: a concrete
`models.TextPart` contributes its `Text` (the Go type switch does not
re-check its `Kind`); a raw map contributes its string `text` field only
when its `kind` field is the string "text"; any other part contributes
nothing. -/
def partText : PartElem → String
  | .textPart _ text => text
  | .mapPart m =>
    match lookupKey "kind" m with
    | some (.str "text") =>
      match lookupKey "text" m with
      | some (.str t) => t
      | _ => ""
    | _ => ""
  | _ => ""

/-- Concatenation of the texts of a part list, in order (the
`strings.Builder` accumulation). -/
def partsText (parts : List PartElem) : String :=
  parts.foldl (fun acc p => acc ++ partText p) ""

/-- Concatenation of the texts of all artifacts' parts, in order. -/
def artifactsText (artifacts : List Artifact) : String :=
  artifacts.foldl (fun acc a => acc ++ partsText a.parts) ""

/-- The backwards history walk of `transformA2AToOpenAI`, on the
already-reversed history: skip non-agent messages; for an agent
message, stop with its text when that text is non-empty, otherwise
keep walking. -/
def historyTextRev : List A2AMessage → String
  | [] => ""
  | msg :: rest =>
    if msg.role = "agent" then
      let t := partsText msg.parts
      if t ≠ "" then t else historyTextRev rest
    else historyTextRev rest

/-- The content extraction of `transformA2AToOpenAI`: text from the
artifacts when the artifact list is non-empty, falling back to the
backwards history walk whenever the accumulated content is still
empty. -/
def extractContent (result : A2AResult) : String :=
  let fromArtifacts := if result.artifacts.length > 0 then artifactsText result.artifacts else ""
  if fromArtifacts = "" then historyTextRev result.history.reverse else fromArtifacts

/-- From `openai_a2a.go`: `transformA2AToOpenAI` converts an A2A success
envelope into an OpenAI chat-completion response.  The fresh UUID and
the current time are passed in as `freshId` and `now`. -/
def transformA2AToOpenAI (a2aResp : A2ASuccess) (originalReq : OpenAIRequest)
    (freshId : String) (now : Int) : OpenAIResponse :=
  let content := extractContent a2aResp.result
  { id := freshId
    object := "chat.completion"
    created := now
    model := originalReq.model
    choices := [{ index := 0
                  message := { role := "assistant", content := content }
                  finishReason := "stop" }] }

/-- From `openai_a2a.go`: `transformOpenAIToA2A` converts an OpenAI
chat-completion request into an A2A `message/send` request carrying
only the last message.  Fails when `messages` is empty.  The fresh
message UUID is passed in as `msgId`. -/
def transformOpenAIToA2A (openAIReq : OpenAIRequest) (conversationId msgId : String) :
    Except String SendMessageRequest :=
  if h : openAIReq.messages = [] then .error "no messages found"
  else
    let lastMsg := openAIReq.messages.getLast h
    .ok { jsonrpc := "2.0"
          id := 1
          method := "message/send"
          params := { message := { kind := "message"
                                   messageId := msgId
                                   contextId := some conversationId
                                   role := "user"
                                   parts := [.textPart "text" lastMsg.content] }
                      metadata := [] } }

/-- From `openai_a2a.go` plugin configuration: one registry entry. -/
structure AgentInfo where
  modelID : String
  url : String
  ownedBy : String
  createdAt : Int
deriving DecidableEq

/-- Scheme and host of a successfully parsed URL (the two components
`resolveAgentBackend` reads from `url.Parse`). -/
structure UrlParts where
  scheme : String
  host : String
deriving DecidableEq

/-- From `chat_completions.go`: structured resolution failure.  The
internal messages keep the text of the Go `fmt.Sprintf` formats with
the quoting punctuation elided. -/
structure AgentResolutionError where
  errType : String
  internalMsg : String
  clientMsg : String
deriving DecidableEq

/-- From `chat_completions.go`: the routing triple for a resolved
agent. -/
structure ModelInfo where
  modelID : String
  path : String
  url : String
deriving DecidableEq

/-- From `chat_completions.go`: `resolveAgentBackend` resolves the
`model` parameter against the configured agents.  The behaviour of
`url.Parse` (an external library call) is abstracted as the `parseURL`
argument: `none` models a parse error, `some` carries the scheme and
host read by the code.  Go checks one reserved-character set with
`strings.ContainsAny(model, "?#[]@!$&\x27()*+,;=")`; the check is
rendered here as the disjunction of two `goContainsAny` calls, with
the apostrophe (escaped as \x27) split out — membership in a union of
character sets is the disjunction of the memberships. -/
def resolveAgentBackend (parseURL : String → Option UrlParts) (model : String)
    (agents : List AgentInfo) : Except AgentResolutionError ModelInfo :=
  if model = "" then
    .error { errType := "invalid_format"
             internalMsg := "model parameter cannot be empty"
             clientMsg := "model parameter is required" }
  else if goContains model ".." then
    .error { errType := "invalid_format"
             internalMsg := "invalid model parameter " ++ model ++ ": contains invalid pattern .."
             clientMsg := "invalid model parameter format" }
  else if goContainsAny model "?#[]@!$&()*+,;=" ∨ goContainsAny model "\x27" then
    .error { errType := "invalid_format"
             internalMsg := "invalid model parameter " ++ model ++ ": contains invalid characters"
             clientMsg := "invalid model parameter format" }
  else
    match agents.find? (fun agent => agent.modelID = model) with
    | some agent =>
      if agent.url = "" then
        .error { errType := "configuration_error"
                 internalMsg := "agent " ++ model ++ " has no URL configured"
                 clientMsg := "model is not available" }
      else
        match parseURL agent.url with
        | none =>
          .error { errType := "configuration_error"
                   internalMsg := "failed to parse agent URL for " ++ model
                   clientMsg := "model is not available" }
        | some parsedURL =>
          .ok { modelID := model
                path := "/" ++ model
                url := parsedURL.scheme ++ "://" ++ parsedURL.host }
    | none =>
      .error { errType := "not_found"
               internalMsg := "model " ++ model ++ " not found in configuration"
               clientMsg := "model not found" }

end OpenAIA2A

namespace OpenAIA2A

/-- The Go error value the chat-completions handler inspects with
`errors.As`: either the structured resolution error or some other
error value. -/
inductive GoError where
  | resolution (e : AgentResolutionError) : GoError
  | plain (msg : String) : GoError

/-- From `chat_completions.go` (lines 188-199): the status code chosen
for a resolution failure — 404 for `not_found`, 400 for every other
structured error, 500 when the error is not an
`AgentResolutionError`. -/
def chatErrorStatus : GoError → Nat
  | .resolution e => if e.errType = "not_found" then 404 else 400
  | .plain _ => 500

/-- The streaming-rejection body written by the handler.  Object keys
appear in the alphabetical order `encoding/json` uses for Go maps;
JSON object equality is unordered. -/
def streamErrorBody : Jv :=
  .obj [("error", .obj
    [ ("code", .null)
    , ("message", .str "Streaming is not currently supported by the Agent Gateway")
    , ("type", .str "invalid_request_error") ])]

/-- The request body as the handler reads it: `io.ReadAll` may fail,
`json.Unmarshal` into `models.OpenAIRequest` may fail, or decoding
succeeds. -/
inductive ReqBody where
  | unreadable : ReqBody
  | undecodable : ReqBody
  | decoded (r : OpenAIRequest) : ReqBody

/-- An incoming HTTP request as the openai-a2a plugin reads it. -/
structure ChatReq where
  method : String
  path : String
  body : ReqBody
  conversationIdHeader : String

/-- The request the wrapped next handler receives: either the original
request passed through, or the rewritten request carrying the resolved
agent path and the A2A body. -/
inductive Forwarded where
  | original (req : ChatReq) : Forwarded
  | a2a (path : String) (a2aReq : SendMessageRequest) : Forwarded

/-- The body of a next-handler response: raw bytes, bytes that decode
as an A2A success envelope, or bytes that fail to decode as one. -/
inductive NBody where
  | raw (s : String) : NBody
  | a2aOk (envelope : A2ASuccess) : NBody
  | a2aBad (s : String) : NBody
deriving DecidableEq

/-- A response produced by the wrapped next handler. -/
structure NextResp where
  status : Nat
  body : NBody

/-- The body of the response the plugin hands to the client. -/
inductive GBody where
  | text (s : String) : GBody
  | jsonv (v : Jv) : GBody
  | openai (r : OpenAIResponse) : GBody
  | fromBackend (b : NBody) : GBody
deriving DecidableEq

/-- The response the plugin hands to the client. -/
structure GResp where
  status : Nat
  body : GBody
deriving DecidableEq

/-- From `chat_completions.go`: `handleGlobalChatCompletions`.  Returns
the client response and whether the wrapped next handler was invoked.
The fresh conversation id (derived from the clock when the
`X-Conversation-ID` header is empty), the fresh message UUID, the
fresh response UUID and the current time are passed in as `freshConv`,
`msgId`, `freshId` and `now`. -/
def handleGlobalChatCompletions (agents : List AgentInfo)
    (parseURL : String → Option UrlParts) (freshConv msgId freshId : String) (now : Int)
    (next : Forwarded → NextResp) (req : ChatReq) : GResp × Bool :=
  if req.method ≠ "POST" then (⟨405, .text "method not allowed\n"⟩, false)
  else
    match req.body with
    | .unreadable => (⟨400, .text "failed to read request body\n"⟩, false)
    | .undecodable => (⟨400, .text "invalid OpenAI request format\n"⟩, false)
    | .decoded openAIReq =>
      if openAIReq.stream then (⟨400, .jsonv streamErrorBody⟩, false)
      else if openAIReq.model = "" then
        (⟨400, .text "model parameter is required\n"⟩, false)
      else
        match resolveAgentBackend parseURL openAIReq.model agents with
        | .error resErr =>
          (⟨chatErrorStatus (.resolution resErr), .text (resErr.clientMsg ++ "\n")⟩, false)
        | .ok modelInfo =>
          let conversationId :=
            if req.conversationIdHeader = "" then freshConv else req.conversationIdHeader
          match transformOpenAIToA2A openAIReq conversationId msgId with
          | .error _ => (⟨400, .text "invalid OpenAI request\n"⟩, false)
          | .ok a2aReq =>
            let resp := next (.a2a modelInfo.path a2aReq)
            if resp.status ≠ 200 then (⟨resp.status, .fromBackend resp.body⟩, true)
            else
              match resp.body with
              | .a2aOk envelope =>
                (⟨200, .openai (transformA2AToOpenAI envelope openAIReq freshId now)⟩, true)
              | _ => (⟨500, .text "failed to parse backend response\n"⟩, true)

/-- The OpenAI model listing built by `handleModelsRequest` from the
configured agents, as a JSON value (`created` keeps its integer
literal). -/
def modelsListing (agents : List AgentInfo) : Jv :=
  .obj [ ("object", .str "list")
       , ("data", .arr (agents.map (fun agent =>
           .obj [ ("id", .str agent.modelID)
                , ("object", .str "model")
                , ("created", .num (toString agent.createdAt))
                , ("owned_by", .str agent.ownedBy) ]))) ]

/-- From `models.go`: `handleModelsRequest` answers `GET /models` from
the configured agents and rejects other methods with 405.  It never
invokes the wrapped next handler. -/
def handleModelsRequest (agents : List AgentInfo) (req : ChatReq) : GResp × Bool :=
  if req.method ≠ "GET" then (⟨405, .text "method not allowed\n"⟩, false)
  else (⟨200, .jsonv (modelsListing agents)⟩, false)

/-- From `openai_a2a.go`: the router `handleRequest` — `GET /models`
and `POST /chat/completions` are dispatched to their handlers, every
other request is passed through to the wrapped next handler
unchanged. -/
def handleRequest (agents : List AgentInfo) (parseURL : String → Option UrlParts)
    (freshConv msgId freshId : String) (now : Int) (next : Forwarded → NextResp)
    (req : ChatReq) : GResp × Bool :=
  if req.method = "GET" ∧ req.path = "/models" then
    handleModelsRequest agents req
  else if req.method = "POST" ∧ req.path = "/chat/completions" then
    handleGlobalChatCompletions agents parseURL freshConv msgId freshId now next req
  else
    let resp := next (.original req)
    (⟨resp.status, .fromBackend resp.body⟩, true)

/-- Modelled from the spec (§8 I6): a minimal successful echo backend —
it answers an A2A `message/send` request with a success envelope whose
single artifact contains one text part equal to the sent text. -/
def echoBackend (a2aReq : SendMessageRequest) : A2ASuccess :=
  { jsonrpc := "2.0"
    id := a2aReq.id
    result := { artifacts := [{ artifactId := "echo-artifact"
                                parts := [.textPart "text" (partsText a2aReq.params.message.parts)] }]
                history := []
                contextId := (a2aReq.params.message.contextId).getD "" } }

/-- Modelled from the spec (§4.E) for comparison with the source: the
content extraction exactly as the claim words it — when `artifacts` is
non-empty the concatenated text of its parts with kind "text"; else
the text parts of the first `agent` message from the end of `history`;
else the empty string. -/
def specContentC2 (result : A2AResult) : String :=
  if result.artifacts ≠ [] then
    artifactsText result.artifacts
  else
    match result.history.reverse.find? (fun msg => msg.role = "agent") with
    | some msg => partsText msg.parts
    | none => ""

/-- The nearby content description that does hold of the code: the
artifact text when non-empty, otherwise the text of the most recent
`agent` history message whose own text is non-empty, otherwise the
empty string. -/
def amendedContentC2 (result : A2AResult) : String :=
  let fromArtifacts := artifactsText result.artifacts
  if fromArtifacts ≠ "" then fromArtifacts
  else
    match ((result.history.reverse.filter (fun msg => msg.role = "agent")).map
        (fun msg => partsText msg.parts)).find? (fun t => t ≠ "") with
    | some t => t
    | none => ""

end OpenAIA2A

/-! ## Concrete instances used by counterexamples and witnesses -/

/-- A `url.Parse` oracle for concrete runs: parses the one demo backend
URL and rejects everything else. -/
def demoParseURL : String → Option OpenAIA2A.UrlParts :=
  fun s => if s = "http://localhost:8001" then some ⟨"http", "localhost:8001"⟩ else none

/-- Demo registry holding one agent. -/
def demoAgents : List OpenAIA2A.AgentInfo :=
  [{ modelID := "mock-agent", url := "http://localhost:8001", ownedBy := "demo", createdAt := 1 }]

/-- A backend answering every forwarded request with status 200 and an
opaque body. -/
def okNext : OpenAIA2A.Forwarded → OpenAIA2A.NextResp := fun _ => ⟨200, .raw "ok"⟩

/-- Counterexample card for the rewrite claim: a single interface whose
transport (`websocket`) is dropped by the filter. -/
def c1Card : List (String × Jv) :=
  [ ("url", .str "http://internal:8000/")
  , ("additionalInterfaces", .arr [.obj [("transport", .str "websocket"), ("url", .str "ws://x")]]) ]

/-- A GET agent-card request owned by the rewriter. -/
def c1Req : AgentCardRW.CardReq :=
  { method := "GET", path := "/test-agent/.well-known/agent-card.json"
    host := "gw.example", xForwardedProto := "https" }

/-- A downstream backend serving `c1Card` as JSON with status 200. -/
def c1Backend : AgentCardRW.CardReq → AgentCardRW.CardBackendResp :=
  fun _ => ⟨200, "application/json", .jsonObj c1Card⟩

/-- Counterexample A2A result: a non-empty artifact list carrying no
text part, and a history whose single agent message carries text. -/
def c2Result : OpenAIA2A.A2AResult :=
  { artifacts := [{ artifactId := "a1"
                    parts := [.mapPart [("kind", .str "data"), ("data", .obj [])]] }]
    history := [{ kind := "message", messageId := "m1", contextId := none, role := "agent"
                  parts := [.mapPart [("kind", .str "text"), ("text", .str "Hi")]] }]
    contextId := "ctx" }

/-- The counterexample A2A success envelope around `c2Result`. -/
def c2Resp : OpenAIA2A.A2ASuccess := { jsonrpc := "2.0", id := 1, result := c2Result }

/-- The original OpenAI request echoed into the counterexample
translation. -/
def c2Req : OpenAIA2A.OpenAIRequest := { model := "gpt-4", messages := [], stream := false }

/-- A GET request to `/chat/completions` (wrong method for the chat
endpoint). -/
def c5Req : OpenAIA2A.ChatReq :=
  { method := "GET", path := "/chat/completions", body := .undecodable
    conversationIdHeader := "" }

/-- A GET agent-card request whose downstream will answer 404. -/
def c6Req : AgentCardRW.CardReq :=
  { method := "GET", path := "/test-agent/.well-known/agent-card.json"
    host := "gw.example", xForwardedProto := "https" }

/-- A downstream backend answering 404 with a distinctive body. -/
def c6Backend : AgentCardRW.CardReq → AgentCardRW.CardBackendResp :=
  fun _ => ⟨404, "application/json", .text "agent not found"⟩

/-- A GET agent-card request whose `Host` field is the empty string. -/
def c7Req : AgentCardRW.CardReq :=
  { method := "GET", path := "/weather-agent/.well-known/agent-card.json"
    host := "", xForwardedProto := "" }

/-- A downstream backend serving a small card, to observe that the
empty-Host request is still forwarded and rewritten. -/
def c7Backend : AgentCardRW.CardReq → AgentCardRW.CardBackendResp :=
  fun _ => ⟨200, "application/json", .jsonObj [("url", .str "http://internal:8000/")]⟩

/-- Counterexample card whose `additionalInterfaces` is the empty JSON
array. -/
def c8Card : List (String × Jv) :=
  [("name", .str "Test Agent"), ("additionalInterfaces", .arr [])]

/-! ## Supporting lemmas -/

theorem lookupKey_mapSet_self (m : List (String × Jv)) (k : String) (v : Jv) :
    lookupKey k (mapSet m k v) = (lookupKey k m).map (fun _ => v) := by
  induction m with
  | nil => rfl
  | cons kv rest ih =>
    obtain ⟨k', v'⟩ := kv
    simp only [mapSet, List.map_cons]
    by_cases h : k' = k
    · subst h
      rw [if_pos rfl]
      simp only [lookupKey]
      simp
    · rw [if_neg h]
      simp only [lookupKey]
      rw [if_neg h, if_neg h]
      exact ih

theorem lookupKey_mapSet_ne (m : List (String × Jv)) (k k' : String) (v : Jv)
    (h : k' ≠ k) : lookupKey k' (mapSet m k v) = lookupKey k' m := by
  induction m with
  | nil => rfl
  | cons kv rest ih =>
    obtain ⟨a, b⟩ := kv
    simp only [mapSet, List.map_cons]
    by_cases ha : a = k
    · have hak' : ¬ a = k' := fun hh => h (ha ▸ hh.symm ▸ rfl)
      rw [if_pos ha]
      simp only [lookupKey]
      rw [if_neg hak', if_neg hak']
      exact ih
    · rw [if_neg ha]
      simp only [lookupKey]
      by_cases ha' : a = k'
      · rw [if_pos ha', if_pos ha']
      · rw [if_neg ha', if_neg ha']
        exact ih

theorem isValidTransport_iff (t : String) :
    AgentCardRW.isValidTransport t = true ↔
      goToLower t ∈ (["jsonrpc", "grpc", "http+json"] : List String) := by
  simp [AgentCardRW.isValidTransport, List.mem_cons, or_assoc]

theorem interfaceStep_eq (ext : String) (acc : Option (List Jv)) (x : Jv) :
    AgentCardRW.interfaceStep ext acc x =
      match AgentCardRW.specKeepElem ext x with
      | some e => AgentCardRW.goAppend acc e
      | none => acc := by
  cases x with
  | obj m =>
    simp only [AgentCardRW.interfaceStep, AgentCardRW.specKeepElem]
    cases hT : AgentCardRW.safeGetString m "transport" with
    | none => simp
    | some t =>
      dsimp only
      by_cases hV : goToLower t ∈ (["jsonrpc", "grpc", "http+json"] : List String)
      · have hb : AgentCardRW.isValidTransport t = true := (isValidTransport_iff t).mpr hV
        simp [hb, hV]
      · have hb : AgentCardRW.isValidTransport t = false :=
          Bool.eq_false_iff.mpr (fun hh => hV ((isValidTransport_iff t).mp hh))
        simp [hb, hV]
  | null => rfl
  | bool b => rfl
  | num l => rfl
  | str s => rfl
  | arr xs => rfl
  | arrNil => rfl

theorem foldl_interfaceStep_some (ext : String) (l : List Jv) (ys : List Jv) :
    l.foldl (AgentCardRW.interfaceStep ext) (some ys) =
      some (ys ++ l.filterMap (AgentCardRW.specKeepElem ext)) := by
  induction l generalizing ys with
  | nil => simp
  | cons x xs ih =>
    rw [List.foldl_cons, interfaceStep_eq]
    cases hx : AgentCardRW.specKeepElem ext x with
    | none => simp [List.filterMap_cons, hx, ih]
    | some e => simp [List.filterMap_cons, hx, AgentCardRW.goAppend, ih]

theorem foldl_interfaceStep_none (ext : String) (l : List Jv) :
    l.foldl (AgentCardRW.interfaceStep ext) none =
      (match l.filterMap (AgentCardRW.specKeepElem ext) with
       | [] => none
       | kept => some kept) := by
  induction l with
  | nil => simp
  | cons x xs ih =>
    rw [List.foldl_cons, interfaceStep_eq]
    cases hx : AgentCardRW.specKeepElem ext x with
    | none => simpa [List.filterMap_cons, hx] using ih
    | some e =>
      simp only [AgentCardRW.goAppend, foldl_interfaceStep_some, List.filterMap_cons, hx,
        List.singleton_append]

theorem rewriteAdditional_eq (interfaces : List Jv) (gatewayURL agentPath : String) :
    AgentCardRW.rewriteAdditionalInterfacesMap interfaces gatewayURL agentPath =
      (match interfaces.filterMap
          (AgentCardRW.specKeepElem (AgentCardRW.constructExternalURL gatewayURL agentPath)) with
       | [] => none
       | kept => some kept) :=
  foldl_interfaceStep_none _ interfaces

theorem urlKey_ne : ("url" : String) ≠ "additionalInterfaces" := by decide

theorem rewriteCard_lookup_other (cardMap : List (String × Jv)) (gw ap k : String)
    (hk1 : k ≠ "url") (hk2 : k ≠ "additionalInterfaces") :
    lookupKey k (AgentCardRW.rewriteAgentCardMap cardMap gw ap) = lookupKey k cardMap := by
  have base :
      lookupKey k (if (AgentCardRW.safeGetString cardMap "url").isSome
        then mapSet cardMap "url" (Jv.str (AgentCardRW.constructExternalURL gw ap))
        else cardMap) = lookupKey k cardMap := by
    split
    · exact lookupKey_mapSet_ne _ _ _ _ hk1
    · rfl
  simp only [AgentCardRW.rewriteAgentCardMap]
  split
  · rw [lookupKey_mapSet_ne _ _ _ _ hk2]
    exact base
  · exact base

theorem rewriteCard_lookup_url_str (cardMap : List (String × Jv)) (gw ap s : String)
    (h : lookupKey "url" cardMap = some (.str s)) :
    lookupKey "url" (AgentCardRW.rewriteAgentCardMap cardMap gw ap) =
      some (.str (AgentCardRW.constructExternalURL gw ap)) := by
  have hS : AgentCardRW.safeGetString cardMap "url" = some s := by
    simp [AgentCardRW.safeGetString, h]
  have base :
      lookupKey "url" (if (AgentCardRW.safeGetString cardMap "url").isSome
        then mapSet cardMap "url" (Jv.str (AgentCardRW.constructExternalURL gw ap))
        else cardMap) = some (.str (AgentCardRW.constructExternalURL gw ap)) := by
    rw [if_pos (by simp [hS])]
    rw [lookupKey_mapSet_self, h]
    rfl
  simp only [AgentCardRW.rewriteAgentCardMap]
  split
  · rw [lookupKey_mapSet_ne _ _ _ _ urlKey_ne]
    exact base
  · exact base

theorem rewriteCard_lookup_url_nonstr (cardMap : List (String × Jv)) (gw ap : String)
    (h : AgentCardRW.safeGetString cardMap "url" = none) :
    lookupKey "url" (AgentCardRW.rewriteAgentCardMap cardMap gw ap) =
      lookupKey "url" cardMap := by
  have base :
      lookupKey "url" (if (AgentCardRW.safeGetString cardMap "url").isSome
        then mapSet cardMap "url" (Jv.str (AgentCardRW.constructExternalURL gw ap))
        else cardMap) = lookupKey "url" cardMap := by
    rw [if_neg (by simp [h])]
  simp only [AgentCardRW.rewriteAgentCardMap]
  split
  · rw [lookupKey_mapSet_ne _ _ _ _ urlKey_ne]
    exact base
  · exact base

theorem lookupKey_m1_additional (cardMap : List (String × Jv)) (gw ap : String) :
    lookupKey "additionalInterfaces"
      (if (AgentCardRW.safeGetString cardMap "url").isSome
        then mapSet cardMap "url" (Jv.str (AgentCardRW.constructExternalURL gw ap))
        else cardMap) = lookupKey "additionalInterfaces" cardMap := by
  split
  · exact lookupKey_mapSet_ne _ _ _ _ (fun hh => urlKey_ne hh.symm)
  · rfl

theorem rewriteCard_lookup_additional (cardMap : List (String × Jv)) (gw ap : String)
    (xs : List Jv) (h : lookupKey "additionalInterfaces" cardMap = some (.arr xs)) :
    lookupKey "additionalInterfaces" (AgentCardRW.rewriteAgentCardMap cardMap gw ap) =
      some (match xs.filterMap
          (AgentCardRW.specKeepElem (AgentCardRW.constructExternalURL gw ap)) with
        | [] => Jv.arrNil
        | kept => Jv.arr kept) := by
  have hm1 := lookupKey_m1_additional cardMap gw ap
  rw [h] at hm1
  have hGA : AgentCardRW.safeGetArray
      (if (AgentCardRW.safeGetString cardMap "url").isSome
        then mapSet cardMap "url" (Jv.str (AgentCardRW.constructExternalURL gw ap))
        else cardMap) "additionalInterfaces" = some xs := by
    simp [AgentCardRW.safeGetArray, hm1]
  simp only [AgentCardRW.rewriteAgentCardMap, hGA]
  rw [lookupKey_mapSet_self, hm1]
  rw [rewriteAdditional_eq]
  cases hf : xs.filterMap
      (AgentCardRW.specKeepElem (AgentCardRW.constructExternalURL gw ap)) with
  | nil => rfl
  | cons e rest => rfl

theorem rewriteCard_lookup_additional_nonarr (cardMap : List (String × Jv)) (gw ap : String)
    (h : AgentCardRW.safeGetArray cardMap "additionalInterfaces" = none) :
    lookupKey "additionalInterfaces" (AgentCardRW.rewriteAgentCardMap cardMap gw ap) =
      lookupKey "additionalInterfaces" cardMap := by
  have hm1 := lookupKey_m1_additional cardMap gw ap
  have hGA : AgentCardRW.safeGetArray
      (if (AgentCardRW.safeGetString cardMap "url").isSome
        then mapSet cardMap "url" (Jv.str (AgentCardRW.constructExternalURL gw ap))
        else cardMap) "additionalInterfaces" = none := by
    simp only [AgentCardRW.safeGetArray] at h ⊢
    rw [hm1]
    exact h
  simp only [AgentCardRW.rewriteAgentCardMap, hGA]
  exact hm1

/-! ## Claim C1 -/

/-- C1 (amended).  For every decoded agent card, `rewriteAgentCardMap`
changes exactly the claimed fields: a string-valued top-level `url` is
replaced by the external URL; an array-valued `additionalInterfaces`
is replaced by the order-preserving subsequence of its elements kept
and rewritten according to `specKeepElem` (objects with a recognized
string transport, their string `url` overwritten, every sibling field
preserved) — except that, the Go result slice being nil when no
element survives, an empty subsequence is stored as the nil slice
(`Jv.arrNil`), which marshals to JSON `null` rather than to the empty
array the claim states; every other field, `provider` included, is
unchanged. -/
theorem c1_rewrite_characterization (cardMap : List (String × Jv)) (gw ap : String) :
    (∀ k, k ≠ "url" → k ≠ "additionalInterfaces" →
      lookupKey k (AgentCardRW.rewriteAgentCardMap cardMap gw ap) = lookupKey k cardMap)
  ∧ (∀ s, lookupKey "url" cardMap = some (.str s) →
      lookupKey "url" (AgentCardRW.rewriteAgentCardMap cardMap gw ap) =
        some (.str (AgentCardRW.constructExternalURL gw ap)))
  ∧ (AgentCardRW.safeGetString cardMap "url" = none →
      lookupKey "url" (AgentCardRW.rewriteAgentCardMap cardMap gw ap) =
        lookupKey "url" cardMap)
  ∧ (∀ xs, lookupKey "additionalInterfaces" cardMap = some (.arr xs) →
      lookupKey "additionalInterfaces" (AgentCardRW.rewriteAgentCardMap cardMap gw ap) =
        some (match xs.filterMap
            (AgentCardRW.specKeepElem (AgentCardRW.constructExternalURL gw ap)) with
          | [] => Jv.arrNil
          | kept => Jv.arr kept))
  ∧ (AgentCardRW.safeGetArray cardMap "additionalInterfaces" = none →
      lookupKey "additionalInterfaces" (AgentCardRW.rewriteAgentCardMap cardMap gw ap) =
        lookupKey "additionalInterfaces" cardMap) :=
  ⟨fun k hk1 hk2 => rewriteCard_lookup_other cardMap gw ap k hk1 hk2,
   fun s hs => rewriteCard_lookup_url_str cardMap gw ap s hs,
   fun h => rewriteCard_lookup_url_nonstr cardMap gw ap h,
   fun xs hxs => rewriteCard_lookup_additional cardMap gw ap xs hxs,
   fun h => rewriteCard_lookup_additional_nonarr cardMap gw ap h⟩

/-- C1 (counterexample).  A card whose single interface is dropped by
the transport filter: the claim predicts `additionalInterfaces`
becomes the empty array, but the handler emits the card with the nil
slice, whose wire image is JSON `null`, not `[]`. -/
theorem c1_counterexample :
    AgentCardRW.handleRequest c1Backend c1Req =
      (⟨200, .jsonObj [ ("url", Jv.str "https://gw.example/test-agent")
                      , ("additionalInterfaces", Jv.arrNil) ]⟩, true)
  ∧ wireImage Jv.arrNil = Jv.null
  ∧ Jv.null ≠ Jv.arr [] := by
  refine ⟨by decide, rfl, by decide⟩

/-- C1 (witness): the characterization applied to the counterexample
card, discharging the hypotheses at concrete fields. -/
theorem c1_witness :
    lookupKey "url" (AgentCardRW.rewriteAgentCardMap c1Card "https://gw.example" "/test-agent") =
      some (.str (AgentCardRW.constructExternalURL "https://gw.example" "/test-agent"))
  ∧ lookupKey "additionalInterfaces"
      (AgentCardRW.rewriteAgentCardMap c1Card "https://gw.example" "/test-agent") =
        some Jv.arrNil := by
  have h := c1_rewrite_characterization c1Card "https://gw.example" "/test-agent"
  refine ⟨h.2.1 "http://internal:8000/" (by decide), ?_⟩
  have h4 := h.2.2.2.1
    [.obj [("transport", .str "websocket"), ("url", .str "ws://x")]] (by decide)
  simpa using h4

/-! ## Claim C8 -/

/-- C8 (amended).  When the decoded card's `additionalInterfaces` is
the empty JSON array, the rewritten card holds the nil slice
(`Jv.arrNil`) under that key — the Go `var result []interface{}` never
grows — and the nil slice marshals to JSON `null`, not to the empty
array `[]` the claim states. -/
theorem c8_empty_interfaces_become_null (cardMap : List (String × Jv)) (gw ap : String)
    (h : lookupKey "additionalInterfaces" cardMap = some (Jv.arr [])) :
    lookupKey "additionalInterfaces" (AgentCardRW.rewriteAgentCardMap cardMap gw ap) =
      some Jv.arrNil
  ∧ wireImage Jv.arrNil = Jv.null := by
  have h4 := rewriteCard_lookup_additional cardMap gw ap [] h
  exact ⟨by simpa using h4, rfl⟩

/-- C8 (counterexample).  The concrete card with
`additionalInterfaces: []`: after the rewrite the field holds the nil
slice, whose wire image is JSON `null`, which is not the empty JSON
array. -/
theorem c8_counterexample :
    lookupKey "additionalInterfaces"
      (AgentCardRW.rewriteAgentCardMap c8Card "https://gw.ai" "/a") = some Jv.arrNil
  ∧ wireImage Jv.arrNil = Jv.null
  ∧ Jv.null ≠ Jv.arr [] := by
  refine ⟨by decide, rfl, by decide⟩

/-- C8 (witness): the amended statement applied to the concrete empty
card. -/
theorem c8_witness :
    lookupKey "additionalInterfaces"
      (AgentCardRW.rewriteAgentCardMap c8Card "https://gw.ai" "/a") = some Jv.arrNil := by
  exact (c8_empty_interfaces_become_null c8Card "https://gw.ai" "/a" (by decide)).1

/-! ## Claim C2 -/

theorem historyTextRev_eq (l : List OpenAIA2A.A2AMessage) :
    OpenAIA2A.historyTextRev l =
      (match ((l.filter (fun msg => msg.role = "agent")).map
          (fun msg => OpenAIA2A.partsText msg.parts)).find? (fun t => t ≠ "") with
       | some t => t
       | none => "") := by
  induction l with
  | nil => rfl
  | cons m rest ih =>
    by_cases hr : m.role = "agent"
    · by_cases ht : OpenAIA2A.partsText m.parts = ""
      · simp [OpenAIA2A.historyTextRev, hr, ht, List.filter_cons, List.find?_cons, ih]
      · simp [OpenAIA2A.historyTextRev, hr, ht, List.filter_cons, List.find?_cons]
    · simp [OpenAIA2A.historyTextRev, hr, List.filter_cons, ih]

theorem extractContent_eq_amended (r : OpenAIA2A.A2AResult) :
    OpenAIA2A.extractContent r = OpenAIA2A.amendedContentC2 r := by
  unfold OpenAIA2A.extractContent OpenAIA2A.amendedContentC2
  have hart : (if r.artifacts.length > 0 then OpenAIA2A.artifactsText r.artifacts else "") =
      OpenAIA2A.artifactsText r.artifacts := by
    cases r.artifacts with
    | nil => rfl
    | cons a l => simp
  rw [hart]
  by_cases h : OpenAIA2A.artifactsText r.artifacts = ""
  · simp [h, historyTextRev_eq]
  · simp [h]

/-- C2 (amended).  The response translator produces exactly one choice,
whose content is: the concatenated artifact text when that text is
non-empty; otherwise the text of the most recent history message with
role `agent` whose own text-part concatenation is non-empty (agent
messages contributing no text do not stop the backwards walk, contrary
to the claim's "and stop"); otherwise the empty string.  A part
contributes text as `partText` describes: a typed `TextPart`
contributes its text unconditionally, a raw map only when its `kind`
is "text". -/
theorem c2_content_translation (resp : OpenAIA2A.A2ASuccess) (req : OpenAIA2A.OpenAIRequest)
    (freshId : String) (now : Int) :
    OpenAIA2A.transformA2AToOpenAI resp req freshId now =
      { id := freshId
        object := "chat.completion"
        created := now
        model := req.model
        choices := [{ index := 0
                      message := { role := "assistant"
                                   content := OpenAIA2A.amendedContentC2 resp.result }
                      finishReason := "stop" }] } := by
  unfold OpenAIA2A.transformA2AToOpenAI
  rw [extractContent_eq_amended]

/-- C2 (counterexample).  An envelope whose non-empty artifact list
yields no text while the history holds an agent message with text: the
claim predicts the empty content (artifacts present, no text parts,
and the walk must stop at the last agent message), but the code falls
back to the history and produces "Hi". -/
theorem c2_counterexample :
    (OpenAIA2A.transformA2AToOpenAI c2Resp c2Req "fresh" 0).choices =
      [{ index := 0
         message := { role := "assistant", content := "Hi" }
         finishReason := "stop" }]
  ∧ OpenAIA2A.specContentC2 c2Result = ""
  ∧ ("Hi" : String) ≠ "" := by
  refine ⟨by decide, by decide, by decide⟩

/-! ## Claim C9 -/

theorem extractContent_single_text (aid cx c : String) :
    OpenAIA2A.extractContent
      { artifacts := [{ artifactId := aid, parts := [.textPart "text" c] }]
        history := []
        contextId := cx } = c := by
  unfold OpenAIA2A.extractContent OpenAIA2A.artifactsText OpenAIA2A.partsText
  simp [OpenAIA2A.partText]
  by_cases hc : c = ""
  · simp [hc, OpenAIA2A.historyTextRev]
  · simp [hc]

/-- C9.  Round trip through a minimal echo backend: translating an
OpenAI request (with non-empty messages) to A2A, echoing the sent text
back as a single text-part artifact, and translating the reply to
OpenAI yields a single choice whose content is the last input
message's content and whose model echoes the request's model. -/
theorem c9_roundtrip (req : OpenAIA2A.OpenAIRequest) (convId msgId freshId : String)
    (now : Int) (h : req.messages ≠ []) :
    ∃ a2aReq,
      OpenAIA2A.transformOpenAIToA2A req convId msgId = .ok a2aReq
    ∧ (OpenAIA2A.transformA2AToOpenAI (OpenAIA2A.echoBackend a2aReq) req freshId now).choices =
        [{ index := 0
           message := { role := "assistant", content := (req.messages.getLast h).content }
           finishReason := "stop" }]
    ∧ (OpenAIA2A.transformA2AToOpenAI (OpenAIA2A.echoBackend a2aReq) req freshId now).model =
        req.model := by
  refine ⟨{ jsonrpc := "2.0"
            id := 1
            method := "message/send"
            params := { message := { kind := "message"
                                     messageId := msgId
                                     contextId := some convId
                                     role := "user"
                                     parts := [.textPart "text"
                                       ((req.messages.getLast h).content)] }
                        metadata := [] } }, ?_, ?_, rfl⟩
  · unfold OpenAIA2A.transformOpenAIToA2A
    rw [dif_neg h]
  · unfold OpenAIA2A.transformA2AToOpenAI
    simp only [OpenAIA2A.echoBackend]
    congr 1
    simp only [OpenAIA2A.partsText, List.foldl_cons, List.foldl_nil, OpenAIA2A.partText]
    rw [String.empty_append]
    exact congrArg (fun c => { index := 0
                               message := { role := "assistant", content := c }
                               finishReason := "stop" } : String → OpenAIA2A.OpenAIChoice)
      (extractContent_single_text "echo-artifact" convId _)

/-- C9 (witness): the round trip at a concrete one-message request. -/
theorem c9_witness :
    ∃ a2aReq,
      OpenAIA2A.transformOpenAIToA2A
        { model := "mock-agent", messages := [{ role := "user", content := "Hello" }]
          stream := false } "abc" "mid" = .ok a2aReq
    ∧ (OpenAIA2A.transformA2AToOpenAI (OpenAIA2A.echoBackend a2aReq)
        { model := "mock-agent", messages := [{ role := "user", content := "Hello" }]
          stream := false } "fid" 7).choices =
        [{ index := 0
           message := { role := "assistant", content := "Hello" }
           finishReason := "stop" }]
    ∧ (OpenAIA2A.transformA2AToOpenAI (OpenAIA2A.echoBackend a2aReq)
        { model := "mock-agent", messages := [{ role := "user", content := "Hello" }]
          stream := false } "fid" 7).model = "mock-agent" :=
  c9_roundtrip
    { model := "mock-agent", messages := [{ role := "user", content := "Hello" }]
      stream := false } "abc" "mid" "fid" 7 (by decide)

/-! ## Claim C3 -/

/-- C3.  Model resolution: an empty model is rejected as
`invalid_format` with client message "model parameter is required";
a model containing ".." or any URL-reserved character (the set
`?#[]@!$&()*+,;=` together with the apostrophe) is `invalid_format`;
otherwise the first registry entry with byte-equal `modelId` wins —
yielding `configuration_error` with client message "model is not
available" when its URL is empty or unparsable, and on success the
triple with path "/" ++ model and base URL scheme://host; no match is
`not_found` with client message "model not found".  The bridge maps
`not_found` to 404, `invalid_format` and `configuration_error` to 400,
and a non-structured error to 500. -/
theorem c3_model_resolution (parseURL : String → Option OpenAIA2A.UrlParts)
    (model : String) (agents : List OpenAIA2A.AgentInfo) :
    (model = "" →
      OpenAIA2A.resolveAgentBackend parseURL model agents =
        .error { errType := "invalid_format"
                 internalMsg := "model parameter cannot be empty"
                 clientMsg := "model parameter is required" })
  ∧ (model ≠ "" → goContains model ".." = true →
      ∃ e, OpenAIA2A.resolveAgentBackend parseURL model agents = .error e
        ∧ e.errType = "invalid_format" ∧ e.clientMsg = "invalid model parameter format")
  ∧ (model ≠ "" → goContains model ".." = false →
      (goContainsAny model "?#[]@!$&()*+,;=" = true ∨ goContainsAny model "\x27" = true) →
      ∃ e, OpenAIA2A.resolveAgentBackend parseURL model agents = .error e
        ∧ e.errType = "invalid_format" ∧ e.clientMsg = "invalid model parameter format")
  ∧ (∀ agent, model ≠ "" → goContains model ".." = false →
      goContainsAny model "?#[]@!$&()*+,;=" = false → goContainsAny model "\x27" = false →
      agents.find? (fun a => a.modelID = model) = some agent →
        ((agent.url = "" →
          ∃ e, OpenAIA2A.resolveAgentBackend parseURL model agents = .error e
            ∧ e.errType = "configuration_error" ∧ e.clientMsg = "model is not available")
        ∧ (agent.url ≠ "" → parseURL agent.url = none →
          ∃ e, OpenAIA2A.resolveAgentBackend parseURL model agents = .error e
            ∧ e.errType = "configuration_error" ∧ e.clientMsg = "model is not available")
        ∧ (∀ u, agent.url ≠ "" → parseURL agent.url = some u →
          OpenAIA2A.resolveAgentBackend parseURL model agents =
            .ok { modelID := model
                  path := "/" ++ model
                  url := u.scheme ++ "://" ++ u.host })))
  ∧ (model ≠ "" → goContains model ".." = false →
      goContainsAny model "?#[]@!$&()*+,;=" = false → goContainsAny model "\x27" = false →
      agents.find? (fun a => a.modelID = model) = none →
      ∃ e, OpenAIA2A.resolveAgentBackend parseURL model agents = .error e
        ∧ e.errType = "not_found" ∧ e.clientMsg = "model not found")
  ∧ (∀ i c s, OpenAIA2A.chatErrorStatus (.resolution ⟨"not_found", i, c⟩) = 404
      ∧ OpenAIA2A.chatErrorStatus (.resolution ⟨"invalid_format", i, c⟩) = 400
      ∧ OpenAIA2A.chatErrorStatus (.resolution ⟨"configuration_error", i, c⟩) = 400
      ∧ OpenAIA2A.chatErrorStatus (.plain s) = 500) := by
  refine ⟨?_, ?_, ?_, ?_, ?_, ?_⟩
  · intro h
    simp [OpenAIA2A.resolveAgentBackend, h]
  · intro h1 h2
    simp only [OpenAIA2A.resolveAgentBackend]
    rw [if_neg h1, if_pos h2]
    exact ⟨_, rfl, rfl, rfl⟩
  · intro h1 h2 h3
    have hor : (goContainsAny model "?#[]@!$&()*+,;=" = true ∨ goContainsAny model "\x27" = true) := h3
    simp only [OpenAIA2A.resolveAgentBackend]
    rw [if_neg h1, if_neg (by simp [h2]), if_pos (by simpa using hor)]
    exact ⟨_, rfl, rfl, rfl⟩
  · intro agent h1 h2 h3 h4 hfind
    refine ⟨?_, ?_, ?_⟩
    · intro hurl
      simp only [OpenAIA2A.resolveAgentBackend]
      rw [if_neg h1, if_neg (by simp [h2]), if_neg (by simp [h3, h4])]
      simp only [hfind]
      rw [if_pos hurl]
      exact ⟨_, rfl, rfl, rfl⟩
    · intro hurl hparse
      simp only [OpenAIA2A.resolveAgentBackend]
      rw [if_neg h1, if_neg (by simp [h2]), if_neg (by simp [h3, h4])]
      simp only [hfind]
      rw [if_neg hurl]
      simp only [hparse]
      exact ⟨_, rfl, rfl, rfl⟩
    · intro u hurl hparse
      simp only [OpenAIA2A.resolveAgentBackend]
      rw [if_neg h1, if_neg (by simp [h2]), if_neg (by simp [h3, h4])]
      simp only [hfind]
      rw [if_neg hurl]
      simp only [hparse]
  · intro h1 h2 h3 h4 hfind
    simp only [OpenAIA2A.resolveAgentBackend]
    rw [if_neg h1, if_neg (by simp [h2]), if_neg (by simp [h3, h4])]
    simp only [hfind]
    exact ⟨_, rfl, rfl, rfl⟩
  · intro i c s
    refine ⟨rfl, ?_, ?_, rfl⟩
    · simp [OpenAIA2A.chatErrorStatus]
    · simp [OpenAIA2A.chatErrorStatus]

/-- C3 (witness): resolution at a concrete registry and parse oracle,
exercising the success conjunct and the status mapping. -/
theorem c3_witness :
    OpenAIA2A.resolveAgentBackend demoParseURL "mock-agent" demoAgents =
      .ok { modelID := "mock-agent", path := "/mock-agent", url := "http://localhost:8001" }
  ∧ OpenAIA2A.chatErrorStatus (.resolution ⟨"not_found", "i", "c"⟩) = 404
  ∧ OpenAIA2A.chatErrorStatus (.plain "boom") = 500 := by
  have h := c3_model_resolution demoParseURL "mock-agent" demoAgents
  have hsucc := (h.2.2.2.1 ⟨"mock-agent", "http://localhost:8001", "demo", 1⟩
    (by decide) (by decide) (by decide) (by decide) (by decide)).2.2
    ⟨"http", "localhost:8001"⟩ (by decide) (by decide)
  have hmap := h.2.2.2.2.2 "i" "c" "boom"
  exact ⟨by simpa using hsucc, hmap.1, hmap.2.2.2⟩

/-! ## Claim C4 -/

/-- C4.  A POST /chat/completions request whose body decodes with
`stream = true` is answered 400 with exactly the OpenAI-shaped error
object (keys listed in the alphabetical order `encoding/json` writes
for Go maps; JSON object equality is key-order-insensitive), and the
wrapped next handler is never invoked. -/
theorem c4_streaming_rejected (agents : List OpenAIA2A.AgentInfo)
    (parseURL : String → Option OpenAIA2A.UrlParts) (freshConv msgId freshId : String)
    (now : Int) (next : OpenAIA2A.Forwarded → OpenAIA2A.NextResp)
    (req : OpenAIA2A.ChatReq) (r : OpenAIA2A.OpenAIRequest)
    (hm : req.method = "POST") (hp : req.path = "/chat/completions")
    (hb : req.body = .decoded r) (hs : r.stream = true) :
    OpenAIA2A.handleRequest agents parseURL freshConv msgId freshId now next req =
      (⟨400, .jsonv OpenAIA2A.streamErrorBody⟩, false)
  ∧ OpenAIA2A.streamErrorBody =
      Jv.obj [("error", Jv.obj
        [ ("code", Jv.null)
        , ("message", Jv.str "Streaming is not currently supported by the Agent Gateway")
        , ("type", Jv.str "invalid_request_error") ])] := by
  constructor
  · have hn1 : ¬(req.method = "GET" ∧ req.path = "/models") := by
      intro hc
      rw [hm] at hc
      exact absurd hc.1 (by decide)
    unfold OpenAIA2A.handleRequest
    rw [if_neg hn1, if_pos ⟨hm, hp⟩]
    unfold OpenAIA2A.handleGlobalChatCompletions
    rw [if_neg (by simp [hm])]
    simp only [hb]
    rw [if_pos hs]
  · rfl

/-- C4 (witness): the streaming rejection at a concrete request. -/
theorem c4_witness :
    OpenAIA2A.handleRequest demoAgents demoParseURL "c" "m" "f" 0 okNext
      { method := "POST", path := "/chat/completions"
        body := .decoded { model := "mock-agent"
                           messages := [{ role := "user", content := "Hi" }]
                           stream := true }
        conversationIdHeader := "" } =
      (⟨400, .jsonv OpenAIA2A.streamErrorBody⟩, false) :=
  (c4_streaming_rejected demoAgents demoParseURL "c" "m" "f" 0 okNext _ _
    rfl rfl rfl rfl).1

/-! ## Claim C5 -/

/-- C5 (amended).  The router passes a non-POST request on
`/chat/completions` (and a non-GET request on `/models`) through to
the wrapped next handler instead of answering 405; the 405
method guard fires only inside `handleGlobalChatCompletions`
(respectively `handleModelsRequest`), which the router reaches only
with the right method. -/
theorem c5_method_routing (agents : List OpenAIA2A.AgentInfo)
    (parseURL : String → Option OpenAIA2A.UrlParts) (freshConv msgId freshId : String)
    (now : Int) (next : OpenAIA2A.Forwarded → OpenAIA2A.NextResp)
    (req : OpenAIA2A.ChatReq) :
    (req.path = "/chat/completions" → req.method ≠ "POST" →
      OpenAIA2A.handleRequest agents parseURL freshConv msgId freshId now next req =
        (⟨(next (.original req)).status, .fromBackend (next (.original req)).body⟩, true))
  ∧ (req.path = "/models" → req.method ≠ "GET" →
      OpenAIA2A.handleRequest agents parseURL freshConv msgId freshId now next req =
        (⟨(next (.original req)).status, .fromBackend (next (.original req)).body⟩, true))
  ∧ (req.method ≠ "POST" →
      OpenAIA2A.handleGlobalChatCompletions agents parseURL freshConv msgId freshId now next req =
        (⟨405, .text "method not allowed\n"⟩, false))
  ∧ (req.method ≠ "GET" →
      OpenAIA2A.handleModelsRequest agents req = (⟨405, .text "method not allowed\n"⟩, false)) := by
  refine ⟨?_, ?_, ?_, ?_⟩
  · intro hp hm
    unfold OpenAIA2A.handleRequest
    rw [if_neg (fun hc => absurd (hp ▸ hc.2) (by decide)),
        if_neg (fun hc => hm hc.1)]
  · intro hp hm
    unfold OpenAIA2A.handleRequest
    rw [if_neg (fun hc => hm hc.1),
        if_neg (fun hc => absurd (hp ▸ hc.2) (by decide))]
  · intro hm
    unfold OpenAIA2A.handleGlobalChatCompletions
    rw [if_pos hm]
  · intro hm
    unfold OpenAIA2A.handleModelsRequest
    rw [if_pos hm]

/-- C5 (counterexample).  A GET on `/chat/completions` against a
backend answering 200: the gateway's response is the backend's 200,
not the 405 the claim states. -/
theorem c5_counterexample :
    OpenAIA2A.handleRequest demoAgents demoParseURL "c" "m" "f" 0 okNext c5Req =
      (⟨200, .fromBackend (.raw "ok")⟩, true)
  ∧ (200 : Nat) ≠ 405 := by
  refine ⟨by decide, by decide⟩

/-- C5 (witness): the amended routing statement applied at the
concrete GET on `/chat/completions`. -/
theorem c5_witness :
    OpenAIA2A.handleRequest demoAgents demoParseURL "c" "m" "f" 0 okNext c5Req =
      (⟨(okNext (.original c5Req)).status, .fromBackend (okNext (.original c5Req)).body⟩, true)
  ∧ OpenAIA2A.handleGlobalChatCompletions demoAgents demoParseURL "c" "m" "f" 0 okNext c5Req =
      (⟨405, .text "method not allowed\n"⟩, false) := by
  have h := c5_method_routing demoAgents demoParseURL "c" "m" "f" 0 okNext c5Req
  exact ⟨h.1 rfl (by decide), h.2.2.1 (by decide)⟩


/-! ## Claim C10 -/

/-- C10.  For a POST /chat/completions request, the wrapped next
handler is invoked exactly when the body decodes, streaming is off,
model resolution succeeds and the message list is non-empty — the
backend is contacted only after model resolution and OpenAI-to-A2A
translation both succeed, and every earlier rejection (unreadable
body, undecodable body, stream = true, empty model, any resolution
error, empty messages) leaves the backend uncontacted. -/
theorem c10_backend_only_after_success (agents : List OpenAIA2A.AgentInfo)
    (parseURL : String → Option OpenAIA2A.UrlParts) (freshConv msgId freshId : String)
    (now : Int) (next : OpenAIA2A.Forwarded → OpenAIA2A.NextResp)
    (req : OpenAIA2A.ChatReq)
    (hm : req.method = "POST") (hp : req.path = "/chat/completions") :
    (OpenAIA2A.handleRequest agents parseURL freshConv msgId freshId now next req).2 = true ↔
      (∃ r, req.body = .decoded r ∧ r.stream = false
        ∧ (∃ mi, OpenAIA2A.resolveAgentBackend parseURL r.model agents = .ok mi)
        ∧ r.messages ≠ []) := by
  have hn1 : ¬(req.method = "GET" ∧ req.path = "/models") := by
    intro hc
    rw [hm] at hc
    exact absurd hc.1 (by decide)
  unfold OpenAIA2A.handleRequest
  rw [if_neg hn1, if_pos ⟨hm, hp⟩]
  unfold OpenAIA2A.handleGlobalChatCompletions
  rw [if_neg (by simp [hm])]
  cases hb : req.body with
  | unreadable => simp
  | undecodable => simp
  | decoded r =>
    dsimp only
    by_cases hs : r.stream
    · simp [hs]
    · have hsf : r.stream = false := by simpa using hs
      rw [if_neg (by simp [hs])]
      by_cases hmodel : r.model = ""
      · rw [if_pos hmodel]
        simp [OpenAIA2A.resolveAgentBackend, hmodel, hsf]
      · rw [if_neg hmodel]
        cases hres : OpenAIA2A.resolveAgentBackend parseURL r.model agents with
        | error e =>
          constructor
          · intro hfalse
            exact absurd hfalse Bool.false_ne_true
          · rintro ⟨r', hr', -, ⟨mi, hmi⟩, -⟩
            cases hr'
            rw [hres] at hmi
            exact absurd hmi (by simp)
        | ok mi =>
          dsimp only
          cases hmsg : r.messages with
          | nil =>
            unfold OpenAIA2A.transformOpenAIToA2A
            rw [dif_pos hmsg]
            dsimp only
            simp [hmsg]
          | cons mh mt =>
            apply iff_of_true
            · unfold OpenAIA2A.transformOpenAIToA2A
              rw [dif_neg (by simp [hmsg])]
              dsimp only
              split
              all_goals
                split
                · rfl
                · split <;> rfl
            · exact ⟨r, rfl, hsf, ⟨mi, hres⟩, by simp [hmsg]⟩

/-- C10 (witness): the gate evaluated at a concrete successful request
(backend invoked) via the theorem. -/
theorem c10_witness :
    (OpenAIA2A.handleRequest demoAgents demoParseURL "c" "m" "f" 0 okNext
      { method := "POST", path := "/chat/completions"
        body := .decoded { model := "mock-agent"
                           messages := [{ role := "user", content := "Hi" }]
                           stream := false }
        conversationIdHeader := "" }).2 = true := by
  have h := c10_backend_only_after_success demoAgents demoParseURL "c" "m" "f" 0 okNext
    { method := "POST", path := "/chat/completions"
      body := .decoded { model := "mock-agent"
                         messages := [{ role := "user", content := "Hi" }]
                         stream := false }
      conversationIdHeader := "" } rfl rfl
  exact h.mpr ⟨_, rfl, rfl,
    ⟨{ modelID := "mock-agent", path := "/mock-agent", url := "http://localhost:8001" }, rfl⟩,
    by decide⟩

/-! ## Claim C6 -/

/-- C6 (amended).  For an owned GET agent-card request whose captured
downstream status is not 200, the rewriter answers with the downstream
status — never 200 — and the fixed human-readable message
"Backend service returned an error" as the body; the downstream body
itself is discarded, not propagated as the claim states. -/
theorem c6_non200_propagated (backend : AgentCardRW.CardReq → AgentCardRW.CardBackendResp)
    (req : AgentCardRW.CardReq)
    (hget : req.method = "GET") (hcard : AgentCardRW.isAgentCardEndpoint req.path = true)
    (hpath : AgentCardRW.extractAgentPath req.path ≠ "")
    (hstatus : (backend req).status ≠ 200) :
    AgentCardRW.handleRequest backend req =
      (⟨(backend req).status, .text "Backend service returned an error\n"⟩, true)
  ∧ (backend req).status ≠ 200 := by
  refine ⟨?_, hstatus⟩
  unfold AgentCardRW.handleRequest
  rw [if_pos ⟨hget, hcard⟩]
  dsimp only [AgentCardRW.getGatewayURL]
  rw [if_neg hpath, if_pos hstatus]

/-- C6 (counterexample).  A downstream 404 whose body is
"agent not found": the rewriter answers 404 but with the fixed message
as body — the downstream body does not appear in the response, contrary
to the claim's "propagates ... the downstream body". -/
theorem c6_counterexample :
    AgentCardRW.handleRequest c6Backend c6Req =
      (⟨404, .text "Backend service returned an error\n"⟩, true)
  ∧ goContains "Backend service returned an error\n" "agent not found" = false
  ∧ (404 : Nat) ≠ 200 := by
  refine ⟨by decide, by decide, by decide⟩

/-- C6 (witness): the amended statement applied at the concrete 404
backend. -/
theorem c6_witness :
    AgentCardRW.handleRequest c6Backend c6Req =
      (⟨(c6Backend c6Req).status, .text "Backend service returned an error\n"⟩, true) :=
  (c6_non200_propagated c6Backend c6Req rfl (by decide) (by decide) (by decide)).1

/-! ## Claim C7 -/

/-- C7 (code evaluation).  With an empty `Host` header the current
`getGatewayURL` returns `.ok "http://"` — its error branch is dead,
contrary to its own documentation comment — so the handler forwards
the request to the backend and emits a rewritten card with status 200
instead of failing with 500 before forwarding. -/
theorem c7_empty_host_not_rejected :
    AgentCardRW.getGatewayURL c7Req = .ok "http://"
  ∧ AgentCardRW.handleRequest c7Backend c7Req =
      (⟨200, .jsonObj [("url", Jv.str "http://weather-agent")]⟩, true)
  ∧ (200 : Nat) ≠ 500 := by
  refine ⟨rfl, by decide, by decide⟩
